import Mathlib

/-!
Verification of the SoDNestShift account-export server and its client
tools against their specification.

The embedding follows the three Python sources:
* `src/NestShift/app.py` — the Flask export server: identity lookup,
  per-table dump loop, value escaping, GPG sign/encrypt, zip, cleanup;
* `src/Nestshift-tools/decrypter-tool.py` — the client decrypt/verify tool;
* `src/Nestshift-tools/verify.py` — the standalone signature checker.

Database rows are modelled as functions from column name to cell value,
tables as a column list plus a row list, and the database as a function
from table name to table.  A `WHERE c = v` query is a filter over the
row list.  GPG subprocess calls and file-system effects are modelled by
an outcome oracle (`GpgEnv`) and an explicit record of which temporary
files exist (`FileState`).
-/

namespace NestShift

/-- A database cell value: SQL NULL or a string (app.py renders every
non-NULL value through Python `str()` before escaping, line 179). -/
abbrev Value := Option String

/-- Escaping of one character by the dump serializer: a single quote is
doubled, anything else is kept (app.py line 179, `.replace` on quote). -/
def escChar (c : Char) : List Char := if c = '\'' then ['\'', '\''] else [c]

/-- Quote-doubling over a character list. -/
def escList : List Char → List Char
  | [] => []
  | c :: cs => escChar c ++ escList cs

/-- The Python expression `str(value).replace` applied to a quote
(app.py line 179), as a String function. -/
def escapeQuotes (s : String) : String := String.mk (escList s.data)

/-- The quoted literal the serializer emits for a non-NULL value:
a quote, the escaped text, a quote (app.py line 179). -/
def quoteLit (s : String) : String := String.mk ('\'' :: (escList s.data ++ ['\'']))

/-- The per-value serializer of app.py line 179: `NULL` for a Python
`None`, the quoted-and-escaped text otherwise. -/
def serializeValue : Value → String
  | none => "NULL"
  | some s => quoteLit s

/-- The unescaped interpolation used by the hand-written `Users` and
`Vikings` insert statements (app.py lines 160-161): the value is placed
between quotes with no escaping at all. -/
def rawLit (s : String) : String := String.mk ('\'' :: (s.data ++ ['\'']))

/-- Scan the body of a quoted SQL literal: consume characters until an
unescaped closing quote, reading a doubled quote as one quote character.
Returns the decoded content and the characters left after the closing
quote; `none` on an unterminated literal. -/
def parseLitAux : List Char → Option (List Char × List Char)
  | [] => none
  | [c] => if c = '\'' then some ([], []) else none
  | c :: c2 :: rest =>
    if c = '\'' then
      if c2 = '\'' then (parseLitAux rest).map (fun p => ('\'' :: p.1, p.2))
      else some ([], c2 :: rest)
    else (parseLitAux (c2 :: rest)).map (fun p => (c :: p.1, p.2))

/-- Re-parse one serialized value token: a quoted literal gives back its
decoded string, the bare word `NULL` gives back the NULL value.  Returns
the decoded value and the leftover text after the token. -/
def parseValue (s : String) : Option (Value × String) :=
  match s.data with
  | [] => none
  | c :: rest =>
    if c = '\'' then (parseLitAux rest).map (fun p => (some (String.mk p.1), String.mk p.2))
    else if s = "NULL" then some (none, "") else none

lemma parseLitAux_escList (cs : List Char) :
    parseLitAux (escList cs ++ ['\'']) = some (cs, []) := by
  induction cs with
  | nil => simp [escList, parseLitAux]
  | cons c cs ih =>
    by_cases h : c = '\''
    · subst h
      simp [escList, escChar, parseLitAux, ih]
    · have h2 : escList (c :: cs) ++ ['\''] = c :: (escList cs ++ ['\'']) := by
        simp [escList, escChar, h]
      rw [h2]
      rcases e : escList cs ++ ['\''] with _ | ⟨d, ds⟩
      · exact absurd e (by simp)
      · simp only [parseLitAux]
        rw [if_neg h, ← e, ih]
        simp

lemma parseValue_quoteLit (s : String) : parseValue (quoteLit s) = some (some s, "") := by
  cases s with
  | mk data =>
    show parseValue ⟨'\'' :: (escList data ++ ['\''])⟩ = _
    simp [parseValue, parseLitAux_escList]

/-! ## Data model: rows, tables, the database -/

/-- A row maps a column name to the cell value stored there (`none` also
for a column the table does not have). -/
abbrev Row := String → Value

/-- A table: the column list `SELECT *` reports (app.py line 166) and the
stored rows. -/
structure Table where
  columns : List String
  rows : List Row

/-- The database maps a table name to its table. -/
abbrev Database := String → Table

/-- `SELECT * FROM t WHERE c = v` (app.py lines 169 and 171): the rows of
`t` whose cell at column `c` equals the non-NULL value `v`. -/
def rowsWhere (t : Table) (c : String) (v : String) : List Row :=
  t.rows.filter (fun r => r c == some v)

/-- The INSERT statement the dump loop emits for one row (app.py
line 180): column names joined unquoted, values escaped per line 179 in
the introspected column order. -/
def renderRow (table : String) (columns : List String) (r : Row) : String :=
  "INSERT INTO \"" ++ table ++ "\" (" ++ String.intercalate ", " columns ++
    ") VALUES (" ++ String.intercalate ", " (columns.map (fun c => serializeValue (r c))) ++ ");"

/-- The fixed dependent table list of app.py lines 151-156. -/
def tablesList : List String :=
  ["AchievementPoints", "AchievementTaskState", "Dragons", "GameData", "GameDataPairs",
   "GroupViking", "Groups", "Images", "InventoryItems", "MMORoles", "MissionStates",
   "Neighborhoods", "PairData", "Pairs", "Parties", "ProfileAnswers", "RatingRanks",
   "Ratings", "RoomItems", "Rooms", "SavedData", "SceneData", "Sessions", "TaskStatuses",
   "UserBadgesCompleted", "UserMissionData", "Users", "Vikings"]

/-- The inline diagnostic comment appended when a table's export fails
(app.py line 184). -/
def errorComment (t e : String) : String := "-- Error exporting from " ++ t ++ ": " ++ e

/-- The hand-written `Users` insert of app.py line 160: the four values
are interpolated through `rawLit`, i.e. with no quote escaping. -/
def usersInsertRaw (userId username userEmail userPassword : String) : String :=
  "INSERT INTO \"Users\" (\"Id\", \"Username\", \"Email\", \"Password\") VALUES (" ++
    rawLit userId ++ ", " ++ rawLit username ++ ", " ++ rawLit userEmail ++ ", " ++
    rawLit userPassword ++ ");"

/-- The hand-written `Vikings` insert of app.py line 161, also through
`rawLit` with no escaping. -/
def vikingsInsertRaw (vikingId userId username : String) : String :=
  "INSERT INTO \"Vikings\" (\"Id\", \"UserId\", \"Uid\") VALUES (" ++ rawLit vikingId ++
    ", " ++ rawLit userId ++ ", " ++ rawLit username ++ ");"

/-- What one table contributes to the dump (the loop body, app.py
lines 163-185).  `fails t` gives the error text when the queries against
`t` raise; the `except` clause then appends exactly the diagnostic
comment and the loop continues.  Otherwise the rows are scoped by
`VikingId` when that column exists, else by `UserId`, else the table is
skipped (logged only). -/
def tableChunk (db : Database) (fails : String → Option String)
    (vikingId userId : String) (t : String) : List String :=
  match fails t with
  | some e => [errorComment t e]
  | none =>
    let tb := db t
    if "VikingId" ∈ tb.columns then (rowsWhere tb "VikingId" vikingId).map (renderRow t tb.columns)
    else if "UserId" ∈ tb.columns then (rowsWhere tb "UserId" userId).map (renderRow t tb.columns)
    else []

/-- The dump list built from app.py line 158 on: the two hand-written
inserts, then each table's contribution in list order.  (At runtime this
code is unreachable — see `get_user_data` — but it is the code of
lines 158-190 as written.) -/
def buildDump (db : Database) (fails : String → Option String)
    (userId username userEmail userPassword vikingId : String) : List String :=
  usersInsertRaw userId username userEmail userPassword ::
    vikingsInsertRaw vikingId userId username ::
    tablesList.flatMap (tableChunk db fails vikingId userId)

/-! ## The identity lookup and its crash -/

/-- Result of `get_user_data`: no matching principal, an uncaught Python
exception, or a dump list. -/
inductive FetchResult where
  | notFound
  | crash (msg : String)
  | ok (dump : List String)
deriving DecidableEq

/-- The Users lookup of app.py line 131: `SELECT "Id", "Username",
"Email", "Password" FROM "Users" WHERE "Username" = %s AND "Email" = %s`,
then `fetchone` (the first matching row), projected to the four selected
columns. -/
def selectUserRow (db : Database) (username email : String) :
    Option (Value × Value × Value × Value) :=
  (((db "Users").rows.filter
      (fun r => r "Username" == some username && r "Email" == some email)).head?).map
    (fun r => (r "Id", r "Username", r "Email", r "Password"))

/-- The Vikings lookup of app.py line 141 (`SELECT "Id" FROM "Vikings"
WHERE "UserId" = %s`, `fetchone`), unreachable at runtime — see
`get_user_data`. -/
def selectVikingId (db : Database) (userId : Value) : Option Value :=
  (((db "Vikings").rows.filter (fun r => r "UserId" == userId)).head?).map (fun r => r "Id")

/-- app.py lines 124-190.  When no Users row matches both fields the
function returns `None` (line 134-136).  When a row does match, line 138
(`user_id, user_email, user_password = user`) unpacks the four-column
result of the line-131 SELECT into three variables, which in Python
raises `ValueError: too many values to unpack (expected 3)` — so every
matched user makes the fetch raise, and the Vikings lookup
(`selectVikingId`) and the dump construction (`buildDump`) below that
line are dead code. -/
def get_user_data (db : Database) (username email : String) : FetchResult :=
  match selectUserRow db username email with
  | none => .notFound
  | some _user => .crash "ValueError: too many values to unpack (expected 3)"

/-! ## The export route: sign, encrypt, archive, cleanup -/

/-- How one step of the try block ends: normally, with
`subprocess.CalledProcessError` (what `check=True` raises and the
`except` clause catches), or with an exception of any other class. -/
inductive StepOutcome where
  | ok
  | calledProcessError
  | otherError
deriving DecidableEq

/-- Oracle for the effects of the try block of app.py lines 216-252:
how the detach-sign subprocess, the encrypt subprocess and the zip
construction end, and whether a failing gpg call leaves a partial
output file behind (the except clause tests `os.path.exists` for
exactly that reason, lines 257-260). -/
structure GpgEnv where
  signOutcome : StepOutcome
  signLeavesFile : Bool
  encryptOutcome : StepOutcome
  encryptLeavesFile : Bool
  archiveOutcome : StepOutcome
deriving DecidableEq

/-- Which of the three temporary files of one request exist: the `.sql`
dump, the `.asc` signature and the `.gpg` ciphertext. -/
structure FileState where
  sqlFile : Bool
  sigFile : Bool
  encFile : Bool
deriving DecidableEq

/-- No temporary file of this request exists. -/
def cleanFs : FileState := ⟨false, false, false⟩

/-- The HTTP outcome of the route: a delivered zip bundle, an explicit
client or server error response, or an exception that escapes the
handler (Flask then produces its generic 500 page). -/
inductive HttpResult where
  | bundle (downloadName : String) (memberNames : List String)
  | clientError (status : Nat) (body : String)
  | serverError (status : Nat) (body : String)
  | unhandledException (description : String)
deriving DecidableEq

/-- app.py line 204. -/
def invalidCredsMsg : String := "Invalid username or email"

/-- app.py line 261. -/
def gpgFailedMsg : String := "Export succeeded, but GPG processing failed"

/-- The member names written into the zip, in order (app.py lines 234
and 237). -/
def zipMembers (username : String) : List String :=
  [username ++ "_account_export.sql.gpg", username ++ "_account_export.sql.asc"]

/-- The sign / encrypt / zip / cleanup stage of the route (app.py
lines 208-261).  The `.sql` temp file is created first
(`delete=False`, so only explicit `os.unlink` removes it).  A
`CalledProcessError` raised anywhere in the try block reaches the except
clause, which unlinks the `.sql` file and whichever of `.asc`/`.gpg`
exist and answers 500; the success path unlinks all three before
`send_file`.  An exception of any other class propagates out of the
handler and no unlink runs. -/
def exportStage (sqlDump username : String) (env : GpgEnv) : HttpResult × FileState :=
  match env.signOutcome with
  | .calledProcessError => (.serverError 500 gpgFailedMsg, cleanFs)
  | .otherError =>
      (.unhandledException "uncaught exception during gpg detach-sign",
       ⟨true, env.signLeavesFile, false⟩)
  | .ok =>
    match env.encryptOutcome with
    | .calledProcessError => (.serverError 500 gpgFailedMsg, cleanFs)
    | .otherError =>
        (.unhandledException "uncaught exception during gpg encrypt",
         ⟨true, true, env.encryptLeavesFile⟩)
    | .ok =>
      match env.archiveOutcome with
      | .calledProcessError => (.serverError 500 gpgFailedMsg, cleanFs)
      | .otherError =>
          (.unhandledException "uncaught exception while building the zip",
           ⟨true, true, true⟩)
      | .ok => (.bundle (username ++ "_account_export.zip") (zipMembers username), cleanFs)

/-- The `/export` route (app.py lines 196-261; `export` is a Lean
keyword, hence the name).  A falsy `user_data` (None, or an empty list)
answers 400 before any temporary file exists; a `ValueError` escaping
`get_user_data` propagates with no file created either. -/
def exportRoute (db : Database) (username email : String) (env : GpgEnv) :
    HttpResult × FileState :=
  match get_user_data db username email with
  | .notFound => (.clientError 400 invalidCredsMsg, cleanFs)
  | .crash msg => (.unhandledException msg, cleanFs)
  | .ok dump =>
      if dump.isEmpty then (.clientError 400 invalidCredsMsg, cleanFs)
      else exportStage (String.intercalate "\n" dump) username env

/-! ## Startup key resolution (app.py lines 111-113) -/

/-- The hard-coded default of app.py line 113. -/
def defaultGpgKeyId : String := "7259399C6E32A514CD841DF75CFA1A902836CCDB"

/-- app.py line 113: `GPG_KEY_ID = os.getenv("GPG_KEY_ID", default)`,
run once at module import.  The `keyring` parameter records the
fingerprints present in the server's keyring: module-load resolution
never consults it — no validation happens and this step cannot fail. -/
def resolveGpgKeyId (envKeyId : Option String) (keyring : List String) : Option String :=
  some (envKeyId.getD defaultGpgKeyId)

/-! ## Client tools: member selection by suffix -/

/-- Python's `s.endswith(suffix)`. -/
def pyEndsWith (s suffix : String) : Bool := suffix.data.isSuffixOf s.data

/-- One step of the member-selection loop: a name ending in `paySuf`
overwrites the payload slot, else a name ending in `sigSuf` overwrites
the signature slot (the `elif`). -/
def scanStep (paySuf sigSuf : String) (acc : Option String × Option String)
    (f : String) : Option String × Option String :=
  if pyEndsWith f paySuf then (some f, acc.2)
  else if pyEndsWith f sigSuf then (acc.1, some f)
  else acc

/-- The selection loop shared by both client tools
(decrypter-tool.py lines 110-114, verify.py lines 31-35): one pass over
the member names, both slots starting empty. -/
def scanMembers (paySuf sigSuf : String) (names : List String) :
    Option String × Option String :=
  names.foldl (scanStep paySuf sigSuf) (none, none)

/-- Whether a tool proceeds past member selection, and with which two
members. -/
inductive ToolOutcome where
  | missingMembers
  | proceeded (payloadMember sigMember : String)
deriving DecidableEq

/-- `if not payload_member or not sig_member:` — both tools treat an
empty slot as a hard error and return before any decryption or
verification (decrypter-tool.py lines 116-118, verify.py lines 37-39). -/
def selectOutcome (paySuf sigSuf : String) (names : List String) : ToolOutcome :=
  match scanMembers paySuf sigSuf names with
  | (some g, some a) => .proceeded g a
  | _ => .missingMembers

/-- decrypter-tool.py lines 107-118: members are selected by the
`.sql.gpg` and `.sql.asc` suffixes. -/
def decrypterSelect (names : List String) : ToolOutcome :=
  selectOutcome ".sql.gpg" ".sql.asc" names

/-- verify.py lines 29-39: the payload member is selected by the
`.json` suffix and the signature by `.asc`. -/
def verifySelect (names : List String) : ToolOutcome :=
  selectOutcome ".json" ".asc" names

/-! ## Concrete instances used by the evaluation theorems -/

/-- A Users row: alice. -/
def aliceUserRow : Row := fun c =>
  if c = "Id" then some "1"
  else if c = "Username" then some "alice"
  else if c = "Email" then some "alice@example.com"
  else if c = "Password" then some "pw" else none

/-- Alice's Vikings row (UserId 1). -/
def aliceVikingRow : Row := fun c =>
  if c = "Id" then some "42"
  else if c = "UserId" then some "1"
  else if c = "Uid" then some "alice" else none

/-- A table with no columns and no rows. -/
def emptyTable : Table := ⟨[], []⟩

/-- A database where alice matches a Users row and has a Vikings row. -/
def dbAlice : Database := fun t =>
  if t = "Users" then ⟨["Id", "Username", "Email", "Password"], [aliceUserRow]⟩
  else if t = "Vikings" then ⟨["Id", "UserId", "Uid"], [aliceVikingRow]⟩
  else emptyTable

/-- A Users row: bob. -/
def bobUserRow : Row := fun c =>
  if c = "Id" then some "2"
  else if c = "Username" then some "bob"
  else if c = "Email" then some "bob@example.com"
  else if c = "Password" then some "pw2" else none

/-- A database where bob matches a Users row but the Vikings table has
no row for him. -/
def dbBobNoViking : Database := fun t =>
  if t = "Users" then ⟨["Id", "Username", "Email", "Password"], [bobUserRow]⟩
  else if t = "Vikings" then ⟨["Id", "UserId", "Uid"], []⟩
  else emptyTable

/-- All three stage steps succeed. -/
def envAllOk : GpgEnv := ⟨.ok, false, .ok, false, .ok⟩

/-- The detach-sign subprocess fails with `CalledProcessError`. -/
def envSignCPE : GpgEnv := ⟨.calledProcessError, false, .ok, false, .ok⟩

/-- Signing and encryption succeed; building the zip raises an exception
that is not a `CalledProcessError` (an `OSError`, say). -/
def envArchiveRaises : GpgEnv := ⟨.ok, false, .ok, false, .otherError⟩

/-! ## Helper lemmas -/

lemma scanMembers_fold_fst (paySuf sigSuf : String) :
    ∀ (names : List String) (acc : Option String × Option String),
      (names.foldl (scanStep paySuf sigSuf) acc).1.isSome =
        (acc.1.isSome || names.any (fun n => pyEndsWith n paySuf)) := by
  intro names
  induction names with
  | nil => intro acc; simp
  | cons n ns ih =>
    intro acc
    by_cases hg : pyEndsWith n paySuf
    · simp [List.foldl_cons, scanStep, hg, ih]
    · by_cases ha : pyEndsWith n sigSuf
      · simp [List.foldl_cons, scanStep, hg, ha, ih]
      · simp [List.foldl_cons, scanStep, hg, ha, ih]

lemma scanMembers_fold_snd (paySuf sigSuf : String) :
    ∀ (names : List String) (acc : Option String × Option String),
      (names.foldl (scanStep paySuf sigSuf) acc).2.isSome =
        (acc.2.isSome || names.any (fun n => !pyEndsWith n paySuf && pyEndsWith n sigSuf)) := by
  intro names
  induction names with
  | nil => intro acc; simp
  | cons n ns ih =>
    intro acc
    by_cases hg : pyEndsWith n paySuf
    · simp [List.foldl_cons, scanStep, hg, ih]
    · by_cases ha : pyEndsWith n sigSuf
      · simp [List.foldl_cons, scanStep, hg, ha, ih]
      · simp [List.foldl_cons, scanStep, hg, ha, ih]

lemma selectOutcome_missing_iff (paySuf sigSuf : String) (names : List String) :
    (selectOutcome paySuf sigSuf names = .missingMembers ↔
      (names.any (fun n => pyEndsWith n paySuf) = false ∨
       names.any (fun n => !pyEndsWith n paySuf && pyEndsWith n sigSuf) = false)) := by
  have k1 : (scanMembers paySuf sigSuf names).1.isSome =
      names.any (fun n => pyEndsWith n paySuf) := by
    have h1 := scanMembers_fold_fst paySuf sigSuf names (none, none)
    simp at h1
    exact h1
  have k2 : (scanMembers paySuf sigSuf names).2.isSome =
      names.any (fun n => !pyEndsWith n paySuf && pyEndsWith n sigSuf) := by
    have h2 := scanMembers_fold_snd paySuf sigSuf names (none, none)
    simp at h2
    exact h2
  unfold selectOutcome
  rcases hsc : scanMembers paySuf sigSuf names with ⟨g, a⟩
  rw [hsc] at k1 k2
  cases g <;> cases a
  · exact iff_of_true rfl (Or.inl k1.symm)
  · exact iff_of_true rfl (Or.inl k1.symm)
  · exact iff_of_true rfl (Or.inr k2.symm)
  · refine iff_of_false (by simp) ?_
    rw [← k1, ← k2]
    simp

lemma suffix_through_append {t f : List Char} (u : List Char) (h : t.length ≤ f.length) :
    t <:+ u ++ f ↔ t <:+ f := by
  constructor
  · rintro ⟨pre, hp⟩
    have hl : u.length ≤ pre.length := by
      have hlen := congrArg List.length hp
      simp at hlen
      omega
    refine ⟨pre.drop u.length, ?_⟩
    have hd := congrArg (List.drop u.length) hp
    rw [List.drop_append_of_le_length hl, List.drop_left] at hd
    exact hd
  · intro hf
    exact hf.trans (List.suffix_append u f)

lemma asc_suffix_asc_member (u : String) :
    ".asc".data <:+ (u ++ "_account_export.sql.asc").data := by
  rw [String.data_append]
  exact List.IsSuffix.trans (by decide) (List.suffix_append u.data _)

lemma gpg_suffix_gpg_member (u : String) :
    ".gpg".data <:+ (u ++ "_account_export.sql.gpg").data := by
  rw [String.data_append]
  exact List.IsSuffix.trans (by decide) (List.suffix_append u.data _)

lemma no_asc_suffix_gpg_member (u : String) :
    ¬ ".asc".data <:+ (u ++ "_account_export.sql.gpg").data := by
  rw [String.data_append, suffix_through_append u.data (by decide)]
  decide

lemma no_gpg_suffix_asc_member (u : String) :
    ¬ ".gpg".data <:+ (u ++ "_account_export.sql.asc").data := by
  rw [String.data_append, suffix_through_append u.data (by decide)]
  decide

/-- Recognizes a delivered bundle. -/
def isBundle : HttpResult → Bool
  | .bundle _ _ => true
  | _ => false

/-- Recognizes an explicit client-error response. -/
def isClientError : HttpResult → Bool
  | .clientError _ _ => true
  | _ => false

/-! ## The claims -/

/-- C1 (code bug): evaluation at the failing input.  `alice` matches
exactly one Users row and has an associated Vikings row — the claim's
premise holds — yet `get_user_data` raises (app.py line 138 unpacks the
four-column SELECT result into three variables) and the route surfaces
an unhandled `ValueError` instead of producing any bundle of scoped
rows. -/
theorem valid_identity_export_crashes :
    selectUserRow dbAlice "alice" "alice@example.com" =
      some (some "1", some "alice", some "alice@example.com", some "pw") ∧
    selectVikingId dbAlice (some "1") = some (some "42") ∧
    get_user_data dbAlice "alice" "alice@example.com" =
      .crash "ValueError: too many values to unpack (expected 3)" ∧
    exportRoute dbAlice "alice" "alice@example.com" envAllOk =
      (.unhandledException "ValueError: too many values to unpack (expected 3)", cleanFs) := by
  exact ⟨by decide, by decide, by decide, by decide⟩

/-- C2 (code bug): `bob` matches a Users row but has no Vikings row; the
claim (and the dead code of app.py lines 141-145) say this must answer
HTTP 400, but line 138 raises `ValueError` before the Vikings check runs,
so the route surfaces an unhandled exception (a 500), not a client error.
The other half of the claim does hold: a pair matching no Users row gets
the explicit 400 with no temporary artifacts. -/
theorem missing_viking_row_not_client_error :
    selectUserRow dbBobNoViking "bob" "bob@example.com" =
      some (some "2", some "bob", some "bob@example.com", some "pw2") ∧
    selectVikingId dbBobNoViking (some "2") = none ∧
    exportRoute dbBobNoViking "bob" "bob@example.com" envAllOk =
      (.unhandledException "ValueError: too many values to unpack (expected 3)", cleanFs) ∧
    isClientError (exportRoute dbBobNoViking "bob" "bob@example.com" envAllOk).1 = false ∧
    exportRoute dbBobNoViking "nobody" "nobody@example.com" envAllOk =
      (.clientError 400 invalidCredsMsg, cleanFs) := by
  exact ⟨by decide, by decide, by decide, by decide, by decide⟩

/-- C3 counterexample: not every exit path of the sign/encrypt/archive
stage removes the temporary files — an exception that is not a
`CalledProcessError` while building the zip escapes the except clause and
leaves the `.sql` dump, the `.asc` signature and the `.gpg` ciphertext
behind. -/
theorem temp_files_survive_noncpe_exception :
    exportStage "dump" "alice" envArchiveRaises =
      (.unhandledException "uncaught exception while building the zip",
       ⟨true, true, true⟩) ∧
    (exportStage "dump" "alice" envArchiveRaises).2 ≠ cleanFs := by
  exact ⟨by decide, by decide⟩

/-- C3 amended: the temporary files are removed on the success path and
on every `CalledProcessError` path (the exception class `check=True`
raises and the except clause catches); only an exception of another
class escapes without cleanup. -/
theorem cleanup_on_success_and_cpe_paths (sqlDump username : String) (env : GpgEnv)
    (hs : env.signOutcome ≠ .otherError) (he : env.encryptOutcome ≠ .otherError)
    (ha : env.archiveOutcome ≠ .otherError) :
    (exportStage sqlDump username env).2 = cleanFs := by
  obtain ⟨so, sl, eo, el, ao⟩ := env
  cases so <;> cases eo <;> cases ao <;> simp_all [exportStage, cleanFs]

/-- C3 witness: the amended theorem applied at a concrete failing sign
step. -/
theorem cleanup_on_success_and_cpe_paths_witness :
    (exportStage "dump" "alice" envSignCPE).2 = cleanFs :=
  cleanup_on_success_and_cpe_paths "dump" "alice" envSignCPE
    (by decide) (by decide) (by decide)

/-- C4 counterexample: with `GPG_KEY_ID=ABC` in the environment and a
keyring that does not contain `ABC`, module-load key resolution still
succeeds: the key is not validated to exist in the keyring and startup
does not fail. -/
theorem startup_succeeds_with_absent_key :
    resolveGpgKeyId (some "ABC") [] = some "ABC" ∧
    "ABC" ∉ ([] : List String) ∧
    resolveGpgKeyId (some "ABC") [] ≠ none := by
  exact ⟨rfl, by decide, by decide⟩

/-- C4 amended: the signing key reference is read once at module import
from the environment, falling back to a hard-coded default; resolution
never consults the keyring (the result is the same whatever the keyring
holds) and never fails. -/
theorem startup_key_never_validated (envKeyId : Option String)
    (keyring keyring2 : List String) :
    resolveGpgKeyId envKeyId keyring = some (envKeyId.getD defaultGpgKeyId) ∧
    resolveGpgKeyId envKeyId keyring = resolveGpgKeyId envKeyId keyring2 ∧
    (resolveGpgKeyId envKeyId keyring).isSome = true :=
  ⟨rfl, rfl, rfl⟩

/-- C5 counterexample: a container whose two members carry the claimed
`.gpg` and `.asc` suffixes is rejected by the decrypter, which demands
`.sql.gpg` / `.sql.asc`; and the standalone verifier even rejects the
server's own member names, since it demands a `.json` payload. -/
theorem plain_gpg_asc_members_rejected :
    pyEndsWith "payload.gpg" ".gpg" = true ∧
    pyEndsWith "signature.asc" ".asc" = true ∧
    decrypterSelect ["payload.gpg", "signature.asc"] = .missingMembers ∧
    verifySelect ["alice_account_export.sql.gpg", "alice_account_export.sql.asc"] =
      .missingMembers := by
  exact ⟨by decide, by decide, by decide, by decide⟩

/-- C5 amended: the decrypter reaches the missing-members hard error
(returning before any decryption or verification) exactly when no member
ends in `.sql.gpg` or no member not ending in `.sql.gpg` ends in
`.sql.asc` (the elif); the standalone verifier behaves the same with the
`.json` and `.asc` suffixes. -/
theorem member_selection_by_exact_suffixes (names : List String) :
    (decrypterSelect names = .missingMembers ↔
      (names.any (fun n => pyEndsWith n ".sql.gpg") = false ∨
       names.any (fun n => !pyEndsWith n ".sql.gpg" && pyEndsWith n ".sql.asc") = false)) ∧
    (verifySelect names = .missingMembers ↔
      (names.any (fun n => pyEndsWith n ".json") = false ∨
       names.any (fun n => !pyEndsWith n ".json" && pyEndsWith n ".asc") = false)) :=
  ⟨selectOutcome_missing_iff ".sql.gpg" ".sql.asc" names,
   selectOutcome_missing_iff ".json" ".asc" names⟩

/-- C6: a query failure on one dependent table is not fatal and does not
abort the others: the failing table's error appears as the inline
diagnostic comment in the dump, every table's (hence every later
table's) contribution still appears in the dump, and the contribution of
any other table is exactly what it would be had the failing table not
failed. -/
theorem per_table_failure_isolated (db : Database) (fails : String → Option String)
    (userId username userEmail userPassword vikingId : String)
    (t e : String) (ht : t ∈ tablesList) (he : fails t = some e) :
    errorComment t e ∈ buildDump db fails userId username userEmail userPassword vikingId ∧
    (∀ t', t' ∈ tablesList → ∀ x ∈ tableChunk db fails vikingId userId t',
      x ∈ buildDump db fails userId username userEmail userPassword vikingId) ∧
    (∀ t', t' ≠ t →
      tableChunk db fails vikingId userId t' =
        tableChunk db (fun s => if s = t then none else fails s) vikingId userId t') := by
  refine ⟨?_, ?_, ?_⟩
  · have hc : errorComment t e ∈ tableChunk db fails vikingId userId t := by
      simp [tableChunk, he]
    exact List.mem_cons_of_mem _ (List.mem_cons_of_mem _ (List.mem_flatMap.mpr ⟨t, ht, hc⟩))
  · intro t' ht' x hx
    exact List.mem_cons_of_mem _ (List.mem_cons_of_mem _ (List.mem_flatMap.mpr ⟨t', ht', hx⟩))
  · intro t' hne
    simp [tableChunk, hne]

/-- C6 witness: a concrete failing table; its diagnostic comment is in
the dump. -/
theorem per_table_failure_isolated_witness :
    errorComment "Dragons" "boom" ∈
      buildDump dbAlice (fun s => if s = "Dragons" then some "boom" else none)
        "1" "alice" "alice@example.com" "pw" "42" :=
  (per_table_failure_isolated dbAlice
    (fun s => if s = "Dragons" then some "boom" else none)
    "1" "alice" "alice@example.com" "pw" "42" "Dragons" "boom"
    (by decide) (by decide)).1

/-- C7: the per-row escaping of the dump serializer round-trips:
re-parsing any serialized value reproduces it exactly with nothing left
over, an embedded single quote is doubled on output, and NULL is
rendered distinguishably from the empty string. -/
theorem serializer_escaping_roundtrip :
    (∀ v : Value, parseValue (serializeValue v) = some (v, "")) ∧
    escapeQuotes "it's mine" = "it''s mine" ∧
    serializeValue none = "NULL" ∧
    serializeValue (some "") = "''" ∧
    serializeValue none ≠ serializeValue (some "") := by
  refine ⟨?_, by decide, by decide, by decide, by decide⟩
  intro v
  cases v with
  | none => decide
  | some s => exact parseValue_quoteLit s

/-- C8: a bundle produced by the success path of the export stage has
exactly two members — exactly one carrying the signature suffix `.asc`
and exactly one carrying the payload suffix `.gpg` — and both member
base names carry the requesting username as a prefix. -/
theorem archive_member_invariant (sqlDump username : String) (env : GpgEnv)
    (dn : String) (members : List String) (fs : FileState)
    (h : exportStage sqlDump username env = (.bundle dn members, fs)) :
    members.length = 2 ∧
    (∃ m ∈ members, ".asc".data <:+ m.data ∧
      ∀ m' ∈ members, ".asc".data <:+ m'.data → m' = m) ∧
    (∃ m ∈ members, ".gpg".data <:+ m.data ∧
      ∀ m' ∈ members, ".gpg".data <:+ m'.data → m' = m) ∧
    (∀ m ∈ members, username.data <+: m.data) := by
  obtain ⟨so, sl, eo, el, ao⟩ := env
  cases so <;> cases eo <;> cases ao <;> simp [exportStage] at h
  obtain ⟨⟨hdn, hm⟩, hfs⟩ := h
  subst hm
  refine ⟨rfl, ?_, ?_, ?_⟩
  · refine ⟨username ++ "_account_export.sql.asc", by simp [zipMembers], ?_, ?_⟩
    · exact asc_suffix_asc_member username
    · intro m' hm' hsuf
      rcases (by simpa [zipMembers] using hm' :
          m' = username ++ "_account_export.sql.gpg" ∨
          m' = username ++ "_account_export.sql.asc") with h1 | h1
      · exact absurd (h1 ▸ hsuf) (no_asc_suffix_gpg_member username)
      · exact h1
  · refine ⟨username ++ "_account_export.sql.gpg", by simp [zipMembers], ?_, ?_⟩
    · exact gpg_suffix_gpg_member username
    · intro m' hm' hsuf
      rcases (by simpa [zipMembers] using hm' :
          m' = username ++ "_account_export.sql.gpg" ∨
          m' = username ++ "_account_export.sql.asc") with h1 | h1
      · exact h1
      · exact absurd (h1 ▸ hsuf) (no_gpg_suffix_asc_member username)
  · intro m hm
    rcases (by simpa [zipMembers] using hm :
        m = username ++ "_account_export.sql.gpg" ∨
        m = username ++ "_account_export.sql.asc") with h1 | h1 <;>
      · subst h1
        rw [String.data_append]
        exact List.prefix_append _ _

/-- C8 witness: the invariant at a concrete successful stage run. -/
theorem archive_member_invariant_witness :
    (zipMembers "alice").length = 2 ∧
    (∃ m ∈ zipMembers "alice", ".asc".data <:+ m.data ∧
      ∀ m' ∈ zipMembers "alice", ".asc".data <:+ m'.data → m' = m) ∧
    (∃ m ∈ zipMembers "alice", ".gpg".data <:+ m.data ∧
      ∀ m' ∈ zipMembers "alice", ".gpg".data <:+ m'.data → m' = m) ∧
    (∀ m ∈ zipMembers "alice", "alice".data <+: m.data) :=
  archive_member_invariant "dump" "alice" envAllOk "alice_account_export.zip"
    (zipMembers "alice") cleanFs (by decide)

/-- C9: when the signing or the encryption step fails, no bundle and no
client-error response is produced; a `CalledProcessError` (what the gpg
subprocess raises under `check=True`) is answered with exactly status
500 and the gpg failure message, distinct in both status code and body
from the 400 identity error.  (A failure of another exception class
escapes the handler, which the framework also surfaces as a 5xx.) -/
theorem gpg_failure_is_server_error (sqlDump username : String) (env : GpgEnv)
    (h : env.signOutcome ≠ .ok ∨ env.encryptOutcome ≠ .ok) :
    isBundle (exportStage sqlDump username env).1 = false ∧
    isClientError (exportStage sqlDump username env).1 = false ∧
    ((env.signOutcome = .calledProcessError ∨
      (env.signOutcome = .ok ∧ env.encryptOutcome = .calledProcessError)) →
      (exportStage sqlDump username env).1 = .serverError 500 gpgFailedMsg) ∧
    gpgFailedMsg ≠ invalidCredsMsg ∧ (500 : Nat) ≠ 400 := by
  obtain ⟨so, sl, eo, el, ao⟩ := env
  refine ⟨?_, ?_, ?_, by decide, by decide⟩ <;>
    cases so <;> cases eo <;> cases ao <;>
      simp_all [exportStage, isBundle, isClientError]

/-- C9 witness: the theorem at a concrete failing sign subprocess. -/
theorem gpg_failure_is_server_error_witness :
    (exportStage "dump" "alice" envSignCPE).1 = .serverError 500 gpgFailedMsg :=
  (gpg_failure_is_server_error "dump" "alice" envSignCPE
    (Or.inl (by decide))).2.2.1 (Or.inl (by decide))

/-- C10: the first two statements of any dump are the hand-written Users
and Vikings inserts, whose values go through `rawLit` — plain
interpolation with none of the quote escaping applied to all other rows —
and for the username `O'Brien` re-parsing the interpolated literal yields
the value `O` (with `Brien'` left over), not the original value. -/
theorem handwritten_inserts_skip_escaping :
    (∀ db fails userId username userEmail userPassword vikingId,
      (buildDump db fails userId username userEmail userPassword vikingId).head? =
        some (usersInsertRaw userId username userEmail userPassword) ∧
      (buildDump db fails userId username userEmail userPassword vikingId).tail.head? =
        some (vikingsInsertRaw vikingId userId username)) ∧
    rawLit "O'Brien" ≠ serializeValue (some "O'Brien") ∧
    parseValue (rawLit "O'Brien") = some (some "O", "Brien'") ∧
    (parseValue (rawLit "O'Brien")).map (fun p => p.1) ≠ some (some "O'Brien") := by
  exact ⟨fun db fails a b c d e => ⟨rfl, rfl⟩, by decide, by decide, by decide⟩

end NestShift
